import Mathlib

/-
  Shallow embedding of src/mega866/examples/example_8086/core_8086.py
  (class Core8086, class IoWidth, and the BasicMemController backend of
  example_using_core/example_run_asm_program.py).

  Pin bitmasks are Nat (bit (p-1) is pin p).  Adapter and backend calls
  are recorded as an event trace; Python exceptions (the AssertionError
  of the data encoder, the AttributeError raised by the unreachable
  `self.self._PIN_WR` expression) are explicit outcomes.
-/

namespace Core8086

/-- Transfer widths, from `class IoWidth(Enum)`. -/
inductive IoWidth
  | WHOLE_WORD
  | UPPER_BYTE
  | LOWER_BYTE
deriving DecidableEq, Repr

/-- Cycle directions, from `class _IoDirection(Enum)`. -/
inductive IoDirection
  | READ
  | WRITE
deriving DecidableEq, Repr

/-- Address spaces, from `class _IoSpace(Enum)` (constructor IOX models the
source's `IO` member). -/
inductive IoSpace
  | MEMORY
  | IOX
deriving DecidableEq, Repr

/-- `_ADDRESS_PINS`: map from Mega-866 pin number to 8086 address/data line,
in source order. -/
def ADDRESS_PINS : List (Nat × Nat) :=
  [(31, 0), (27, 1), (25, 2), (23, 3), (75, 4), (73, 5), (71, 6), (69, 7),
   (67, 8), (9, 9), (7, 10), (5, 11), (3, 12), (1, 13), (55, 14), (53, 15),
   (57, 16), (59, 17), (61, 18), (63, 19)]

/-- `_DATA_PINS`: the 16 pins carrying data lines AD0..AD15. -/
def DATA_PINS : List Nat :=
  [31, 27, 25, 23, 75, 73, 71, 69, 67, 9, 7, 5, 3, 1, 55, 53]

def PIN_BHE : Nat := 65
def PIN_RD : Nat := 13
def PIN_READY : Nat := 41
def PIN_INTR : Nat := 39
def PIN_TEST : Nat := 37
def PIN_NMI : Nat := 35
def PIN_RESET : Nat := 45
def PIN_CLK : Nat := 43
def PIN_VCC : Nat := 49
def PIN_GND1 : Nat := 51
def PIN_GND2 : Nat := 47
def PIN_MN_MX : Nat := 11
/-- `_PIN_M_IO` in the source. -/
def PIN_MIO_SEL : Nat := 21
def PIN_WR : Nat := 19
def PIN_INTA : Nat := 33
def PIN_ALE : Nat := 29
def PIN_DT_R : Nat := 77
def PIN_DEN : Nat := 79
def PIN_HOLD : Nat := 15
def PIN_HLDA : Nat := 17
def PIN_LOCK : Nat := 19

/-- Modelled from the spec: `all_earth_pins` comes from the external
`gpio_controller` module (not under src/); the spec fixes adapter pin
numbers to the range [1, 160]. -/
def all_earth_pins : List Nat := List.range' 1 160

/-- `_tristate_pins`: all earth pins minus the always-driven control pins.
The source mutates a Python set; the resulting membership is modelled as a
filter (set iteration order is irrelevant below because `pins` is an
order-independent bitwise OR). -/
def tristate_pins : List Nat :=
  all_earth_pins.filter (fun p =>
    p ∉ [PIN_READY, PIN_INTR, PIN_TEST, PIN_NMI, PIN_RESET, PIN_CLK,
         PIN_MN_MX, PIN_HOLD])

/-- `_ALWAYS_HIGH_PINS`. -/
def ALWAYS_HIGH_PINS : List Nat := [PIN_MN_MX, PIN_READY]

/-- `_pin`: translate a pin number to its bitmask bit. -/
def pin (x : Nat) : Nat := 1 <<< (x - 1)

/-- `_pins`: OR together the bits of many pin numbers. -/
def pins (pin_list : List Nat) : Nat :=
  pin_list.foldl (fun res p => res ||| pin p) 0

/-- `_get_address_pins`: decode the 20-bit address from a sampled bitmask. -/
def get_address_pins (input_pins : Nat) : Nat :=
  ADDRESS_PINS.foldl
    (fun addr kv =>
      if input_pins &&& (1 <<< (kv.1 - 1)) != 0 then addr ||| (1 <<< kv.2)
      else addr) 0

/-- `_get_data_pins`: decode the 16-bit data value from a sampled bitmask
(only roles with line number < 16). -/
def get_data_pins (input_pins : Nat) : Nat :=
  ADDRESS_PINS.foldl
    (fun addr kv =>
      if kv.2 < 16 && (input_pins &&& (1 <<< (kv.1 - 1)) != 0) then
        addr ||| (1 <<< kv.2)
      else addr) 0

/-- The loop body of `_number_to_data_pins_high`: collect the pins whose
data line bit is set in `num`. -/
def number_to_data_pins_high_list (num : Nat) : List Nat :=
  ADDRESS_PINS.filterMap
    (fun kv => if num &&& (1 <<< kv.2) != 0 then some kv.1 else none)

/-- `_number_to_data_pins_high`: the `assert num <= 65535` guard is modelled
as `none` (AssertionError raised before any pin list is built). -/
def number_to_data_pins_high (num : Nat) : Option (List Nat) :=
  if num ≤ 65535 then some (number_to_data_pins_high_list num) else none

/-- Python exceptions that the source can raise at runtime. -/
inductive PyError
  | attributeError
  | assertionFailed
deriving DecidableEq, Repr

/-- How one `run`-loop iteration ends: continue looping, return from `run`
(decode error), or terminate with an uncaught Python exception. -/
inductive Outcome
  | cont
  | halt
  | err (e : PyError)
deriving DecidableEq, Repr

/-- Adapter and backend calls observable during setup and the run loop. -/
inductive Event
  | ctrlInit
  | ioW (mask : Nat)
  | ioR (value : Nat)
  | ioTri (mask : Nat)
  | vddVolt (level : Nat)
  | vddPins (mask : Nat)
  | gndPins (mask : Nat)
  | vddEn
  | memRead (addr : Nat) (w : IoWidth) (val : Nat)
  | memWrite (addr val : Nat)
  | portRead (addr : Nat) (w : IoWidth) (val : Nat)
  | portWrite (addr val : Nat)
deriving DecidableEq, Repr

/-- The memory/IO backend interface (`mem_funcs_class`): value-returning
reads; writes are recorded as trace events only. -/
structure MemFuncs where
  read_memory : Nat → IoWidth → Nat
  read_ioport : Nat → IoWidth → Nat

/-- Direction decode of `Core8086.run` (lines 177-185).  If the read-strobe
bit is low the cycle is a READ.  Otherwise the source evaluates
`self._pin(self.self._PIN_WR)`; `Core8086` has no attribute `self`, so this
raises AttributeError: neither WRITE nor the could-not-determine branch is
reachable. -/
def decodeDirection (read_pins : Nat) : Except PyError IoDirection :=
  if read_pins &&& pin PIN_RD == 0 then .ok .READ
  else .error .attributeError

/-- Width decode of `Core8086.run` (lines 197-208), on
(bhe, a0) = (BHE bit of the re-sample, bit 0 of the latched address);
`none` is the `Invalid state!` return. -/
def decodeWidth (bhe a0 : Bool) : Option IoWidth :=
  if !bhe && !a0 then some .WHOLE_WORD
  else if !bhe && a0 then some .UPPER_BYTE
  else if bhe && !a0 then some .LOWER_BYTE
  else none

/-- `Core8086._perform_read_write`, as the list of adapter/backend events it
issues plus its outcome.  `s3` is the value the adapter would return for the
`io_r()` call of the write path. -/
def performReadWrite (B : MemFuncs) (s3 : Nat) (address : Nat)
    (direction : IoDirection) (space : IoSpace) (width : IoWidth) :
    List Event × Outcome :=
  match direction with
  | .READ =>
    let triRead := Event.ioTri (pins (tristate_pins.filter (fun p => p ∉ DATA_PINS)))
    let data := match space with
      | .MEMORY => B.read_memory address width
      | .IOX => B.read_ioport address width
    let readEv := match space with
      | .MEMORY => Event.memRead address width data
      | .IOX => Event.portRead address width data
    match number_to_data_pins_high data with
    | none => ([triRead, readEv], .err .assertionFailed)
    | some data_pins =>
      ([triRead, readEv,
        .ioW (pins (ALWAYS_HIGH_PINS ++ [PIN_CLK] ++ data_pins)),
        .ioW (pins (ALWAYS_HIGH_PINS ++ data_pins)),
        .ioW (pins (ALWAYS_HIGH_PINS ++ [PIN_CLK] ++ data_pins)),
        .ioW (pins (ALWAYS_HIGH_PINS ++ data_pins)),
        .ioW (pins (ALWAYS_HIGH_PINS ++ [PIN_CLK])),
        .ioTri (pins tristate_pins)], .cont)
  | .WRITE =>
    let data := get_data_pins s3
    let writeEv := match space with
      | .MEMORY => Event.memWrite address data
      | .IOX => Event.portWrite address data
    ([.ioR s3, writeEv,
      .ioW (pins ALWAYS_HIGH_PINS),
      .ioW (pins (ALWAYS_HIGH_PINS ++ [PIN_CLK])),
      .ioW (pins ALWAYS_HIGH_PINS),
      .ioW (pins (ALWAYS_HIGH_PINS ++ [PIN_CLK]))], .cont)

/-- One iteration of the `while True` loop of `Core8086.run`.  `s1` is the
first sample (ALE test and address latch), `s2` the re-sample after the
clock toggle (direction/space/width decode), `s3` the sample of the write
path of the Transfer Executor. -/
def tick (B : MemFuncs) (s1 s2 s3 : Nat) : List Event × Outcome :=
  let pre1 : List Event := [.ioW (pins ALWAYS_HIGH_PINS), .ioR s1]
  let address := get_address_pins s1
  if s1 &&& pin PIN_ALE != 0 then
    let pre2 := pre1 ++ [.ioW (pins (ALWAYS_HIGH_PINS ++ [PIN_CLK])),
                         .ioW (pins ALWAYS_HIGH_PINS), .ioR s2]
    match decodeDirection s2 with
    | .error e => (pre2, .err e)
    | .ok io_dir =>
      let io_space := if s2 &&& pin PIN_MIO_SEL != 0 then IoSpace.MEMORY else IoSpace.IOX
      let bhe := decide (0 < s2 &&& pin PIN_BHE)
      let a0 := decide (0 < address &&& 1)
      match decodeWidth bhe a0 with
      | none => (pre2, .halt)
      | some io_width =>
        let res := performReadWrite B s3 address io_dir io_space io_width
        (pre2 ++ [.ioW (pins (ALWAYS_HIGH_PINS ++ [PIN_CLK]))] ++ res.1, res.2)
  else
    (pre1 ++ [.ioW (pins (ALWAYS_HIGH_PINS ++ [PIN_CLK]))], .cont)

/-- The adapter calls issued by `Core8086.__init__` (the Reset Sequencer),
in order. -/
def initEvents : List Event :=
  [.ctrlInit, .ioW 0, .ioTri (pins tristate_pins), .vddVolt 3,
   .vddPins (pins [PIN_VCC]), .gndPins (pins [PIN_GND1, PIN_GND2]), .vddEn,
   .ioW (pins (ALWAYS_HIGH_PINS ++ [PIN_CLK])),
   .ioW (pins ALWAYS_HIGH_PINS),
   .ioW (pins (ALWAYS_HIGH_PINS ++ [PIN_RESET]))] ++
  (List.replicate 5
    [Event.ioW (pins (ALWAYS_HIGH_PINS ++ [PIN_RESET, PIN_CLK])),
     Event.ioW (pins (ALWAYS_HIGH_PINS ++ [PIN_RESET]))]).flatten ++
  [.ioW (pins (ALWAYS_HIGH_PINS ++ [PIN_RESET, PIN_CLK])),
   .ioW (pins (ALWAYS_HIGH_PINS ++ [PIN_CLK]))]

/-- The masks passed to `writeOutputs` (`io_w`) during setup, in order. -/
def initWriteMasks : List Nat :=
  initEvents.filterMap (fun e => match e with | .ioW m => some m | _ => none)

/-- Sparse byte store of `BasicMemController` (a Python dict; `.get` with
default 0). -/
def memGet (mem : List (Nat × Nat)) (addr : Nat) : Nat :=
  (mem.lookup addr).getD 0

/-- `BasicMemController.read_memory`. -/
def read_memory (mem : List (Nat × Nat)) (address : Nat) (width : IoWidth) : Nat :=
  if width = .UPPER_BYTE ∨ width = .LOWER_BYTE then memGet mem address
  else memGet mem address ||| (memGet mem (address + 1) <<< 8)

/-- `BasicMemController.read_io`. -/
def read_ioport (_address : Nat) (width : IoWidth) : Nat :=
  if width = .UPPER_BYTE ∨ width = .LOWER_BYTE then 0x00 else 0x0000

/-- The boot-program memory contents of `BasicMemController.__init__`. -/
def basicMemory : List (Nat × Nat) :=
  [(0x7c00, 0x90), (0x7c01, 0xeb), (0x7c02, 0xfd),
   (0xffff0, 0xea), (0xffff1, 0x00), (0xffff2, 0x7c),
   (0xffff3, 0x00), (0xffff4, 0x00)]

/-- `BasicMemController` packaged as the backend interface. -/
def basicMemController : MemFuncs :=
  { read_memory := fun a w => read_memory basicMemory a w
    read_ioport := fun a w => read_ioport a w }

/-- A backend whose memory read yields a value wider than 16 bits, used to
exercise the encoder's contract guard. -/
def oversizedBackend : MemFuncs :=
  { read_memory := fun _ _ => 65536
    read_ioport := fun _ _ => 0 }

/-- Every signal role bound to an adapter pin: the 20 address/data lines
plus the `_PIN_*` constants. -/
inductive Role
  | AD0 | AD1 | AD2 | AD3 | AD4 | AD5 | AD6 | AD7
  | AD8 | AD9 | AD10 | AD11 | AD12 | AD13 | AD14 | AD15
  | A16S3 | A17S4 | A18S5 | A19S6
  | BHE | RD | READY | INTR | TEST | NMI | RESET | CLK
  | VCC | GND1 | GND2 | MN_MX | MIO_SEL | WR | INTA | ALE
  | DT_R | DEN | HOLD | HLDA | LOCK
deriving DecidableEq, Fintype, Repr

/-- The pin each role is bound to in the source. -/
def pinOf : Role → Nat
  | .AD0 => 31 | .AD1 => 27 | .AD2 => 25 | .AD3 => 23
  | .AD4 => 75 | .AD5 => 73 | .AD6 => 71 | .AD7 => 69
  | .AD8 => 67 | .AD9 => 9 | .AD10 => 7 | .AD11 => 5
  | .AD12 => 3 | .AD13 => 1 | .AD14 => 55 | .AD15 => 53
  | .A16S3 => 57 | .A17S4 => 59 | .A18S5 => 61 | .A19S6 => 63
  | .BHE => PIN_BHE | .RD => PIN_RD | .READY => PIN_READY
  | .INTR => PIN_INTR | .TEST => PIN_TEST | .NMI => PIN_NMI
  | .RESET => PIN_RESET | .CLK => PIN_CLK | .VCC => PIN_VCC
  | .GND1 => PIN_GND1 | .GND2 => PIN_GND2 | .MN_MX => PIN_MN_MX
  | .MIO_SEL => PIN_MIO_SEL | .WR => PIN_WR | .INTA => PIN_INTA
  | .ALE => PIN_ALE | .DT_R => PIN_DT_R | .DEN => PIN_DEN
  | .HOLD => PIN_HOLD | .HLDA => PIN_HLDA | .LOCK => PIN_LOCK

/-- OR-fold of a function over a list, the common shape of `pins`,
`_get_address_pins` and `_get_data_pins`. -/
def orFold (f : α → Nat) (l : List α) : Nat :=
  l.foldl (fun acc x => acc ||| f x) 0

theorem foldl_or_acc (f : α → Nat) (l : List α) (a : Nat) :
    l.foldl (fun acc x => acc ||| f x) a = a ||| orFold f l := by
  induction l generalizing a with
  | nil => simp [orFold]
  | cons x t ih =>
    simp only [orFold, List.foldl_cons]
    rw [ih (a ||| f x), ih (0 ||| f x)]
    simp [Nat.or_assoc]

theorem orFold_cons (f : α → Nat) (x : α) (t : List α) :
    orFold f (x :: t) = f x ||| orFold f t := by
  simp only [orFold, List.foldl_cons]
  rw [foldl_or_acc]
  simp [orFold]

theorem orFold_nil (f : α → Nat) : orFold f ([] : List α) = 0 := rfl

theorem testBit_orFold (f : α → Nat) (l : List α) (j : Nat) :
    (orFold f l).testBit j = l.any (fun x => (f x).testBit j) := by
  induction l with
  | nil => simp [orFold_nil]
  | cons x t ih => rw [orFold_cons]; simp [Nat.testBit_or, ih]

theorem pins_eq_orFold (l : List Nat) : pins l = orFold pin l := rfl

theorem testBit_ite_zero (c : Prop) [Decidable c] (x j : Nat) :
    (if c then x else 0).testBit j = (decide c && x.testBit j) := by
  by_cases h : c <;> simp [h]

theorem and_one_shiftLeft (n j : Nat) :
    n &&& (1 <<< j) = if n.testBit j then 1 <<< j else 0 := by
  apply Nat.eq_of_testBit_eq
  intro i
  rw [Nat.testBit_and]
  by_cases h : j = i
  · subst h
    cases hn : n.testBit j <;> simp [hn, Nat.one_shiftLeft, Nat.testBit_two_pow]
  · have h1 : (1 <<< j : Nat).testBit i = false := by
      simp [Nat.one_shiftLeft, Nat.testBit_two_pow, h]
    cases hn : n.testBit j <;> simp [hn, h1]

theorem and_one_shiftLeft_bne (n j : Nat) :
    (n &&& (1 <<< j) != 0) = n.testBit j := by
  rw [and_one_shiftLeft]
  cases h : n.testBit j <;> simp [Nat.one_shiftLeft, Nat.pos_iff_ne_zero]

theorem orFold_filterMap (c : α → Bool) (g : α → β) (h : β → Nat) (l : List α) :
    orFold h (l.filterMap (fun x => if c x then some (g x) else none)) =
    orFold (fun x => if c x then h (g x) else 0) l := by
  induction l with
  | nil => rfl
  | cons x t ih =>
    cases hc : c x <;> simp [List.filterMap_cons, hc, orFold_cons, ih]

theorem get_data_pins_eq (m : Nat) :
    get_data_pins m =
      orFold (fun kv : Nat × Nat =>
        if kv.2 < 16 && (m &&& (1 <<< (kv.1 - 1)) != 0) then 1 <<< kv.2 else 0)
        ADDRESS_PINS := by
  unfold get_data_pins orFold
  congr 1
  funext acc kv
  by_cases h : (kv.2 < 16 && (m &&& (1 <<< (kv.1 - 1)) != 0)) = true
  · simp [h]
  · simp [h]

theorem hmask_eq (num : Nat) :
    pins (number_to_data_pins_high_list num) =
      orFold (fun kv : Nat × Nat =>
        if num &&& (1 <<< kv.2) != 0 then pin kv.1 else 0) ADDRESS_PINS := by
  rw [pins_eq_orFold, number_to_data_pins_high_list]
  exact orFold_filterMap _ Prod.fst pin ADDRESS_PINS

theorem testBit_ite (c : Prop) [Decidable c] (x y j : Nat) :
    (if c then x else y).testBit j = if c then x.testBit j else y.testBit j := by
  by_cases h : c <;> simp [h]

theorem if_true_false (c : Prop) [Decidable c] :
    (if c then true else false) = decide c := by
  by_cases h : c <;> simp [h]

theorem pin_testBit (k j : Nat) : (pin k).testBit j = decide (k - 1 = j) := by
  rw [pin, Nat.one_shiftLeft, Nat.testBit_two_pow]

theorem data_roundtrip_list (num : Nat) (h : num ≤ 65535) :
    get_data_pins (pins (number_to_data_pins_high_list num)) = num := by
  set m := pins (number_to_data_pins_high_list num) with hm
  have b0 : m.testBit 30 = num.testBit 0 := by
    rw [hm, hmask_eq, testBit_orFold]
    simp only [ADDRESS_PINS, List.any_cons, List.any_nil, testBit_ite, pin_testBit,
      Nat.zero_testBit, Nat.reduceSub, Nat.reduceEqDiff, decide_True, decide_False,
      ite_self, if_true_false, Bool.decide_eq_true, Bool.false_or, Bool.or_false]
    exact and_one_shiftLeft_bne num 0
  have b1 : m.testBit 26 = num.testBit 1 := by
    rw [hm, hmask_eq, testBit_orFold]
    simp only [ADDRESS_PINS, List.any_cons, List.any_nil, testBit_ite, pin_testBit,
      Nat.zero_testBit, Nat.reduceSub, Nat.reduceEqDiff, decide_True, decide_False,
      ite_self, if_true_false, Bool.decide_eq_true, Bool.false_or, Bool.or_false]
    exact and_one_shiftLeft_bne num 1
  have b2 : m.testBit 24 = num.testBit 2 := by
    rw [hm, hmask_eq, testBit_orFold]
    simp only [ADDRESS_PINS, List.any_cons, List.any_nil, testBit_ite, pin_testBit,
      Nat.zero_testBit, Nat.reduceSub, Nat.reduceEqDiff, decide_True, decide_False,
      ite_self, if_true_false, Bool.decide_eq_true, Bool.false_or, Bool.or_false]
    exact and_one_shiftLeft_bne num 2
  have b3 : m.testBit 22 = num.testBit 3 := by
    rw [hm, hmask_eq, testBit_orFold]
    simp only [ADDRESS_PINS, List.any_cons, List.any_nil, testBit_ite, pin_testBit,
      Nat.zero_testBit, Nat.reduceSub, Nat.reduceEqDiff, decide_True, decide_False,
      ite_self, if_true_false, Bool.decide_eq_true, Bool.false_or, Bool.or_false]
    exact and_one_shiftLeft_bne num 3
  have b4 : m.testBit 74 = num.testBit 4 := by
    rw [hm, hmask_eq, testBit_orFold]
    simp only [ADDRESS_PINS, List.any_cons, List.any_nil, testBit_ite, pin_testBit,
      Nat.zero_testBit, Nat.reduceSub, Nat.reduceEqDiff, decide_True, decide_False,
      ite_self, if_true_false, Bool.decide_eq_true, Bool.false_or, Bool.or_false]
    exact and_one_shiftLeft_bne num 4
  have b5 : m.testBit 72 = num.testBit 5 := by
    rw [hm, hmask_eq, testBit_orFold]
    simp only [ADDRESS_PINS, List.any_cons, List.any_nil, testBit_ite, pin_testBit,
      Nat.zero_testBit, Nat.reduceSub, Nat.reduceEqDiff, decide_True, decide_False,
      ite_self, if_true_false, Bool.decide_eq_true, Bool.false_or, Bool.or_false]
    exact and_one_shiftLeft_bne num 5
  have b6 : m.testBit 70 = num.testBit 6 := by
    rw [hm, hmask_eq, testBit_orFold]
    simp only [ADDRESS_PINS, List.any_cons, List.any_nil, testBit_ite, pin_testBit,
      Nat.zero_testBit, Nat.reduceSub, Nat.reduceEqDiff, decide_True, decide_False,
      ite_self, if_true_false, Bool.decide_eq_true, Bool.false_or, Bool.or_false]
    exact and_one_shiftLeft_bne num 6
  have b7 : m.testBit 68 = num.testBit 7 := by
    rw [hm, hmask_eq, testBit_orFold]
    simp only [ADDRESS_PINS, List.any_cons, List.any_nil, testBit_ite, pin_testBit,
      Nat.zero_testBit, Nat.reduceSub, Nat.reduceEqDiff, decide_True, decide_False,
      ite_self, if_true_false, Bool.decide_eq_true, Bool.false_or, Bool.or_false]
    exact and_one_shiftLeft_bne num 7
  have b8 : m.testBit 66 = num.testBit 8 := by
    rw [hm, hmask_eq, testBit_orFold]
    simp only [ADDRESS_PINS, List.any_cons, List.any_nil, testBit_ite, pin_testBit,
      Nat.zero_testBit, Nat.reduceSub, Nat.reduceEqDiff, decide_True, decide_False,
      ite_self, if_true_false, Bool.decide_eq_true, Bool.false_or, Bool.or_false]
    exact and_one_shiftLeft_bne num 8
  have b9 : m.testBit 8 = num.testBit 9 := by
    rw [hm, hmask_eq, testBit_orFold]
    simp only [ADDRESS_PINS, List.any_cons, List.any_nil, testBit_ite, pin_testBit,
      Nat.zero_testBit, Nat.reduceSub, Nat.reduceEqDiff, decide_True, decide_False,
      ite_self, if_true_false, Bool.decide_eq_true, Bool.false_or, Bool.or_false]
    exact and_one_shiftLeft_bne num 9
  have b10 : m.testBit 6 = num.testBit 10 := by
    rw [hm, hmask_eq, testBit_orFold]
    simp only [ADDRESS_PINS, List.any_cons, List.any_nil, testBit_ite, pin_testBit,
      Nat.zero_testBit, Nat.reduceSub, Nat.reduceEqDiff, decide_True, decide_False,
      ite_self, if_true_false, Bool.decide_eq_true, Bool.false_or, Bool.or_false]
    exact and_one_shiftLeft_bne num 10
  have b11 : m.testBit 4 = num.testBit 11 := by
    rw [hm, hmask_eq, testBit_orFold]
    simp only [ADDRESS_PINS, List.any_cons, List.any_nil, testBit_ite, pin_testBit,
      Nat.zero_testBit, Nat.reduceSub, Nat.reduceEqDiff, decide_True, decide_False,
      ite_self, if_true_false, Bool.decide_eq_true, Bool.false_or, Bool.or_false]
    exact and_one_shiftLeft_bne num 11
  have b12 : m.testBit 2 = num.testBit 12 := by
    rw [hm, hmask_eq, testBit_orFold]
    simp only [ADDRESS_PINS, List.any_cons, List.any_nil, testBit_ite, pin_testBit,
      Nat.zero_testBit, Nat.reduceSub, Nat.reduceEqDiff, decide_True, decide_False,
      ite_self, if_true_false, Bool.decide_eq_true, Bool.false_or, Bool.or_false]
    exact and_one_shiftLeft_bne num 12
  have b13 : m.testBit 0 = num.testBit 13 := by
    rw [hm, hmask_eq, testBit_orFold]
    simp only [ADDRESS_PINS, List.any_cons, List.any_nil, testBit_ite, pin_testBit,
      Nat.zero_testBit, Nat.reduceSub, Nat.reduceEqDiff, decide_True, decide_False,
      ite_self, if_true_false, Bool.decide_eq_true, Bool.false_or, Bool.or_false]
    exact and_one_shiftLeft_bne num 13
  have b14 : m.testBit 54 = num.testBit 14 := by
    rw [hm, hmask_eq, testBit_orFold]
    simp only [ADDRESS_PINS, List.any_cons, List.any_nil, testBit_ite, pin_testBit,
      Nat.zero_testBit, Nat.reduceSub, Nat.reduceEqDiff, decide_True, decide_False,
      ite_self, if_true_false, Bool.decide_eq_true, Bool.false_or, Bool.or_false]
    exact and_one_shiftLeft_bne num 14
  have b15 : m.testBit 52 = num.testBit 15 := by
    rw [hm, hmask_eq, testBit_orFold]
    simp only [ADDRESS_PINS, List.any_cons, List.any_nil, testBit_ite, pin_testBit,
      Nat.zero_testBit, Nat.reduceSub, Nat.reduceEqDiff, decide_True, decide_False,
      ite_self, if_true_false, Bool.decide_eq_true, Bool.false_or, Bool.or_false]
    exact and_one_shiftLeft_bne num 15
  rw [get_data_pins_eq]
  simp only [ADDRESS_PINS, orFold_cons, orFold_nil, and_one_shiftLeft_bne, Nat.reduceSub,
    Nat.reduceLT, decide_True, decide_False, Bool.true_and, Bool.false_and,
    Bool.false_eq_true, if_false, Nat.or_zero, Nat.zero_or, b0, b1, b2, b3, b4, b5, b6, b7, b8, b9, b10, b11, b12, b13, b14, b15]
  simp only [← and_one_shiftLeft]
  simp only [← Nat.and_or_distrib_left]
  rw [show (1 <<< 0 ||| (1 <<< 1 ||| (1 <<< 2 ||| (1 <<< 3 ||| (1 <<< 4 ||| (1 <<< 5 ||| (1 <<< 6 ||| (1 <<< 7 ||| (1 <<< 8 ||| (1 <<< 9 ||| (1 <<< 10 ||| (1 <<< 11 ||| (1 <<< 12 ||| (1 <<< 13 ||| (1 <<< 14 ||| (1 <<< 15))))))))))))))) : Nat) = 2 ^ 16 - 1 by decide,
    Nat.and_pow_two_sub_one_of_lt_two_pow (by omega)]

/-- Claim C10 helper shape is proved directly in the claim theorem below;
this section holds the claim theorems, one per claim, with witnesses. -/
theorem encoder_guard_some (num : Nat) (h : num ≤ 65535) :
    number_to_data_pins_high num = some (number_to_data_pins_high_list num) := by
  rw [number_to_data_pins_high, if_pos h]

/-- Claim C1 (code_bug evidence): direction decode in `Core8086.run`.  When
the read-strobe bit is low the decode yields READ, but when it is high the
source evaluates `self.self._PIN_WR`, raising AttributeError, so the decode
can never yield WRITE and the could-not-determine error return is
unreachable; an ALE cycle whose re-sample has the read-strobe high (and the
write-strobe low, e.g. bitmask `pin PIN_RD` = 0x1000) kills the run loop
with the exception instead of decoding a Write or reporting the decode
error, and the Transfer Executor is never invoked. -/
theorem C1_direction_decode_bug :
    decodeDirection 0 = .ok .READ ∧
    decodeDirection (pin PIN_RD) = .error .attributeError ∧
    (∀ rp, decodeDirection rp ≠ .ok .WRITE) ∧
    tick basicMemController (pin PIN_ALE) (pin PIN_RD) 0 =
      ([.ioW (pins ALWAYS_HIGH_PINS), .ioR (pin PIN_ALE),
        .ioW (pins (ALWAYS_HIGH_PINS ++ [PIN_CLK])),
        .ioW (pins ALWAYS_HIGH_PINS), .ioR (pin PIN_RD)],
       .err .attributeError) := by
  refine ⟨rfl, rfl, ?_, by decide⟩
  intro rp
  unfold decodeDirection
  split <;> simp

/-- Claim C2: data round-trip — for every value v in [0, 65535], decoding
the data lines from the bitmask built from the pins selected by
`_number_to_data_pins_high` yields v back. -/
theorem C2_data_roundtrip (v : Nat) (h : v ≤ 65535) :
    (number_to_data_pins_high v).map (fun l => get_data_pins (pins l)) =
      some v := by
  rw [encoder_guard_some v h, Option.map_some']
  exact congrArg some (data_roundtrip_list v h)

/-- Witness for C2 at v = 0x1234. -/
theorem C2_data_roundtrip_witness :
    (number_to_data_pins_high 4660).map (fun l => get_data_pins (pins l)) =
      some 4660 :=
  C2_data_roundtrip 4660 (by decide)

/-- Claim C3: width decode is total over the four (BHE, A0) combinations
and matches the spec truth table: (0,0) Word, (0,1) UpperByte,
(1,0) LowerByte, and (1,1) is a decode error on which the run loop returns
without invoking the Transfer Executor (no further adapter or backend
event after the re-sample). -/
theorem C3_width_decode_table :
    decodeWidth false false = some IoWidth.WHOLE_WORD ∧
    decodeWidth false true = some IoWidth.UPPER_BYTE ∧
    decodeWidth true false = some IoWidth.LOWER_BYTE ∧
    decodeWidth true true = none ∧
    (∀ (B : MemFuncs) (s1 s2 s3 : Nat),
      s1 &&& pin PIN_ALE ≠ 0 → s2 &&& pin PIN_RD = 0 →
      0 < s2 &&& pin PIN_BHE → 0 < get_address_pins s1 &&& 1 →
      tick B s1 s2 s3 =
        ([.ioW (pins ALWAYS_HIGH_PINS), .ioR s1,
          .ioW (pins (ALWAYS_HIGH_PINS ++ [PIN_CLK])),
          .ioW (pins ALWAYS_HIGH_PINS), .ioR s2], .halt)) := by
  refine ⟨by decide, by decide, by decide, by decide, ?_⟩
  intro B s1 s2 s3 h1 h2 h3 h4
  have h4m : ¬ get_address_pins s1 % 2 = 0 := by
    rw [Nat.and_one_is_mod] at h4; omega
  simp [tick, decodeDirection, decodeWidth, h1, h2, h3, h4m]

/-- Witness for C3: a concrete BHE=1, A0=1 cycle aborts the loop after the
re-sample. -/
theorem C3_width_decode_table_witness :
    tick basicMemController (pin PIN_ALE ||| pin 31) (pin PIN_BHE) 0 =
      ([.ioW (pins ALWAYS_HIGH_PINS), .ioR (pin PIN_ALE ||| pin 31),
        .ioW (pins (ALWAYS_HIGH_PINS ++ [PIN_CLK])),
        .ioW (pins ALWAYS_HIGH_PINS), .ioR (pin PIN_BHE)], .halt) :=
  C3_width_decode_table.2.2.2.2 basicMemController
    (pin PIN_ALE ||| pin 31) (pin PIN_BHE) 0
    (by decide) (by decide) (by decide) (by decide)

/-- Claim C4: the data encoder rejects every value above 65535 (the
`assert`, modelled as `none`, fires before any pin list is built), succeeds
on every value up to 65535, and when the Transfer Executor hits the
rejection no `writeOutputs` call is ever issued (no partial pin state). -/
theorem C4_encoder_contract :
    (∀ num, 65535 < num → number_to_data_pins_high num = none) ∧
    (∀ num, num ≤ 65535 →
      number_to_data_pins_high num = some (number_to_data_pins_high_list num)) ∧
    (∀ (B : MemFuncs) (s3 a : Nat) (sp : IoSpace) (w : IoWidth),
      (performReadWrite B s3 a .READ sp w).2 = .err .assertionFailed →
      ∀ m, Event.ioW m ∉ (performReadWrite B s3 a .READ sp w).1) := by
  refine ⟨?_, ?_, ?_⟩
  · intro num h
    rw [number_to_data_pins_high, if_neg (by omega)]
  · intro num h
    exact encoder_guard_some num h
  · intro B s3 a sp w h m
    unfold performReadWrite at *
    cases sp <;>
      rcases hn : number_to_data_pins_high (B.read_memory a w) with _ | l <;>
      rcases hn2 : number_to_data_pins_high (B.read_ioport a w) with _ | l2 <;>
      simp_all

/-- Witness for C4: rejection at 65536, success at 0x1234, and no
`writeOutputs` event in a transfer whose backend returns 65536. -/
theorem C4_encoder_contract_witness :
    number_to_data_pins_high 65536 = none ∧
    number_to_data_pins_high 4660 = some (number_to_data_pins_high_list 4660) ∧
    Event.ioW 0 ∉
      (performReadWrite oversizedBackend 0 0 .READ .MEMORY .WHOLE_WORD).1 :=
  ⟨C4_encoder_contract.1 65536 (by decide),
   C4_encoder_contract.2.1 4660 (by decide),
   C4_encoder_contract.2.2 oversizedBackend 0 0 .MEMORY .WHOLE_WORD (by decide) 0⟩

/-- Claim C5: every READ transfer that returns control to the engine ends
by restoring the full default tri-state set (data lines tri-stated again):
its last adapter event is `setTriState` of the full `tristate_pins` mask;
and tri-state configuration is only ever changed by the Transfer Executor —
any `setTriState` event of an engine tick occurs inside the dispatched READ
transfer (idle ticks, decode aborts and the direction-decode crash issue
none). -/
theorem C5_tristate_restore_and_frame :
    (∀ (B : MemFuncs) (s3 a : Nat) (sp : IoSpace) (w : IoWidth),
      (performReadWrite B s3 a .READ sp w).2 = .cont →
      (performReadWrite B s3 a .READ sp w).1.getLast? =
        some (.ioTri (pins tristate_pins))) ∧
    (∀ (B : MemFuncs) (s1 s2 s3 m : Nat),
      Event.ioTri m ∈ (tick B s1 s2 s3).1 →
      s1 &&& pin PIN_ALE ≠ 0 ∧ s2 &&& pin PIN_RD = 0 ∧
      ∃ sp w, Event.ioTri m ∈
        (performReadWrite B s3 (get_address_pins s1) IoDirection.READ sp w).1) := by
  refine ⟨?_, ?_⟩
  · intro B s3 a sp w h
    unfold performReadWrite at *
    cases sp <;>
      rcases hn : number_to_data_pins_high (B.read_memory a w) with _ | l <;>
      rcases hn2 : number_to_data_pins_high (B.read_ioport a w) with _ | l2 <;>
      simp_all
  · intro B s1 s2 s3 m hm
    by_cases hale : s1 &&& pin PIN_ALE = 0
    · simp [tick, hale] at hm
    · by_cases hrd : s2 &&& pin PIN_RD = 0
      · simp [tick, decodeDirection, hale, hrd] at hm
        split at hm
        · simp at hm
        · simp at hm
          exact ⟨hale, hrd, _, _, hm⟩
      · simp [tick, decodeDirection, hale, hrd] at hm

set_option maxRecDepth 10000 in
/-- Witness for C5: a concrete word read at 0xFFFF0 ends with the default
tri-state restore, and the restore event of a concrete READ tick is indeed
one of the executor's own events. -/
theorem C5_tristate_restore_and_frame_witness :
    (performReadWrite basicMemController 0 0xffff0 .READ .MEMORY .WHOLE_WORD).1.getLast? =
      some (.ioTri (pins tristate_pins)) ∧
    ((pin PIN_ALE) &&& pin PIN_ALE ≠ 0 ∧ (0 : Nat) &&& pin PIN_RD = 0 ∧
      ∃ sp w, Event.ioTri (pins tristate_pins) ∈
        (performReadWrite basicMemController 0
          (get_address_pins (pin PIN_ALE)) IoDirection.READ sp w).1) :=
  ⟨C5_tristate_restore_and_frame.1 basicMemController 0 0xffff0 .MEMORY
      .WHOLE_WORD (by decide),
   C5_tristate_restore_and_frame.2 basicMemController (pin PIN_ALE) 0 0
      (pins tristate_pins) (by decide)⟩

/-- Claim C6: Reset Sequencer postcondition — in the `writeOutputs` masks
issued by `Core8086.__init__`, the final mask has the clock bit set and the
reset bit clear, after at least 4 clock-high writes with reset asserted. -/
theorem C6_reset_final_clock_high :
    (initWriteMasks.getLast?.getD 0).testBit (PIN_CLK - 1) = true ∧
    (initWriteMasks.getLast?.getD 0).testBit (PIN_RESET - 1) = false ∧
    4 ≤ initWriteMasks.countP
        (fun m => m.testBit (PIN_RESET - 1) && m.testBit (PIN_CLK - 1)) := by
  decide

/-- Claim C7: `BasicMemController.read_memory` (identical in core_8086.py
and example_run_asm_program.py) — byte-width reads return the byte stored
at the address (0 when absent) and word reads return
low-byte OR (byte-at-address+1 shifted left 8). -/
theorem C7_backend_width_semantics (mem : List (Nat × Nat)) (a : Nat) :
    read_memory mem a .UPPER_BYTE = memGet mem a ∧
    read_memory mem a .LOWER_BYTE = memGet mem a ∧
    read_memory mem a .WHOLE_WORD =
      (memGet mem a ||| (memGet mem (a + 1) <<< 8)) :=
  ⟨rfl, rfl, rfl⟩

/-- Claim C8: idle tick — when the first sample has the ALE bit clear, the
iteration is exactly one clock-low write, one sample, and one clock-high
write; the Transfer Executor is not invoked and no backend event occurs. -/
theorem C8_idle_tick (B : MemFuncs) (s1 s2 s3 : Nat)
    (h : s1 &&& pin PIN_ALE = 0) :
    tick B s1 s2 s3 =
      ([.ioW (pins ALWAYS_HIGH_PINS), .ioR s1,
        .ioW (pins (ALWAYS_HIGH_PINS ++ [PIN_CLK]))], .cont) := by
  simp [tick, h]

/-- Witness for C8 at the all-low sample. -/
theorem C8_idle_tick_witness :
    tick basicMemController 0 0 0 =
      ([.ioW (pins ALWAYS_HIGH_PINS), .ioR 0,
        .ioW (pins (ALWAYS_HIGH_PINS ++ [PIN_CLK]))], .cont) :=
  C8_idle_tick basicMemController 0 0 0 (by decide)

/-- Claim C9: pin-map injectivity — no two distinct signal roles share a
pin number except the documented write-strobe/lock pair, and every bound
pin lies in [1, 160]. -/
theorem C9_pin_map_injective :
    (∀ r s : Role, r = s ∨ pinOf r ≠ pinOf s ∨
      (r = .WR ∧ s = .LOCK) ∨ (r = .LOCK ∧ s = .WR)) ∧
    (∀ r : Role, 1 ≤ pinOf r ∧ pinOf r ≤ 160) := by
  decide

/-- Claim C10: for every value in [0, 65535] the encoder only ever selects
data-line pins — never the four address-only pins A16/S3..A19/S6. -/
theorem C10_encoder_data_pins_only (num : Nat) (h : num ≤ 65535) :
    ∀ l, number_to_data_pins_high num = some l → ∀ p ∈ l, p ∈ DATA_PINS := by
  intro l hl p hp
  rw [number_to_data_pins_high, if_pos h] at hl
  injection hl with hl
  subst hl
  rw [number_to_data_pins_high_list, List.mem_filterMap] at hp
  obtain ⟨⟨k, v⟩, hkv, hf⟩ := hp
  fin_cases hkv <;> simp only at hf
  all_goals
    first
    | (split at hf <;>
        first
        | exact Option.noConfusion hf
        | (injection hf with h2
           subst h2
           decide))
    | (rw [and_one_shiftLeft,
        show num.testBit 16 = false from Nat.testBit_lt_two_pow (by omega)] at hf
       simp at hf)
    | (rw [and_one_shiftLeft,
        show num.testBit 17 = false from Nat.testBit_lt_two_pow (by omega)] at hf
       simp at hf)
    | (rw [and_one_shiftLeft,
        show num.testBit 18 = false from Nat.testBit_lt_two_pow (by omega)] at hf
       simp at hf)
    | (rw [and_one_shiftLeft,
        show num.testBit 19 = false from Nat.testBit_lt_two_pow (by omega)] at hf
       simp at hf)

/-- Witness for C10 at num = 0xFFFF: pin 31 (AD0) is selected and is a data
pin. -/
theorem C10_encoder_data_pins_only_witness : 31 ∈ DATA_PINS :=
  C10_encoder_data_pins_only 65535 (by decide)
    (number_to_data_pins_high_list 65535) (by decide) 31 (by decide)

end Core8086
